import Mathlib

/-!
Shallow embedding of `src/cog1/framebuffer.js`.

Modelling conventions:
* JS `Number` depth values (`Float32Array` contents, `z` arguments) are
  embedded as `ℚ`; all depth values appearing in the claims are exactly
  representable, so the comparisons coincide with the JS ones.
* Pixel channels (`Uint8ClampedArray` contents) are embedded as `Int`,
  writes being clamped to `[0, 255]`.
* Typed-array semantics are reproduced: an out-of-range read yields
  `none` (JS `undefined`), an out-of-range store is a silent no-op.
* The module-level mutable state (`framebuffer`, `zBuf`, the reset
  templates and `dirtyRect`) becomes an explicit state record `FB`
  threaded through the operations.
-/

/-- The constant `maxDistance = -10000` of the module. -/
def maxDistance : ℚ := -10000

/-- The dirty rectangle record `{x, y, xMax, yMax}` (inclusive bounds). -/
structure DirtyRect where
  x : Int
  y : Int
  xMax : Int
  yMax : Int
deriving Repr, DecidableEq

/-- The rectangle object returned by `reset`. -/
structure Rect where
  x : Int
  y : Int
  w : Int
  h : Int
deriving Repr, DecidableEq

/-- The module state: canvas dimensions, the two pixel-parallel stores,
the precomputed reset templates and the dirty rectangle. -/
structure FB where
  width : Int
  height : Int
  framebuffer : List Int
  zBuf : List ℚ
  resetBuffer : List Int
  resetZBuffer : List ℚ
  dirtyRect : DirtyRect
deriving Repr, DecidableEq

/-- Typed-array read at a possibly negative index: JS `a[i]` on a typed
array yields `undefined` (here `none`) outside `[0, length)`. -/
def zread (l : List ℚ) (i : Int) : Option ℚ :=
  if 0 ≤ i then l[i.toNat]? else none

/-- Typed-array store at a possibly negative index: out-of-range stores
on a typed array are silently dropped (`List.set` is a no-op past the
end, and a negative index leaves the list unchanged). -/
def zwrite (l : List ℚ) (i : Int) (v : ℚ) : List ℚ :=
  if 0 ≤ i then l.set i.toNat v else l

/-- `Uint8ClampedArray` store semantics for a pixel channel. -/
def clampByte (v : Int) : Int := max 0 (min 255 v)

/-- Store one channel byte into the framebuffer (clamped, out-of-range
stores dropped). -/
def fbWrite (l : List Int) (i : Int) (v : Int) : List Int :=
  if 0 ≤ i then l.set i.toNat (clampByte v) else l

/-- `function zBufferTest(x, y, z, color)` (the `color` argument is
unused by the source).  An in-range read never yields `undefined`, so
the first branch only fires for out-of-range indices. -/
def zBufferTest (st : FB) (x y : Int) (z : ℚ) : Bool × FB :=
  let indexZBuf := y * st.width + x
  match zread st.zBuf indexZBuf with
  | none => (true, { st with zBuf := zwrite st.zBuf indexZBuf z })
  | some stored =>
      if stored < z + 10 then (true, { st with zBuf := zwrite st.zBuf indexZBuf z })
      else (false, st)

/-- `function adjustDirtyRectangle(x, y)`: each axis is an
`if … else if …` chain, exactly as in the source. -/
def adjustDirtyRectangle (st : FB) (x y : Int) : FB :=
  let d0 := st.dirtyRect
  let d1 :=
    if x < d0.x then { d0 with x := x }
    else if d0.xMax < x then { d0 with xMax := x }
    else d0
  let d2 :=
    if y < d1.y then { d1 with y := y }
    else if d1.yMax < y then { d1 with yMax := y }
    else d1
  { st with dirtyRect := d2 }

/-- `function set(x, y, z, color, doZBufferTest, adjustDirtyRect)`
(named `setPixel` here since `set` is taken in Lean).
The two optional flags are `Option Bool` (`none` is JS `undefined`);
the test runs when the flag `=== undefined || === true`.  `rgba` is the
`color.rgbaShaded` array; a missing channel reads as `undefined`, which
a clamped store turns into `0`. -/
def setPixel (st : FB) (x y : Int) (z : ℚ) (rgba : List Int)
    (doZBufferTest adjustDirtyRect : Option Bool) : FB :=
  if x < 0 ∨ y < 0 ∨ st.width ≤ x ∨ st.height ≤ y then st
  else
    let p :=
      if doZBufferTest = none ∨ doZBufferTest = some true then zBufferTest st x y z
      else (true, st)
    if p.1 = false then p.2
    else
      let st1 := p.2
      let st2 :=
        if adjustDirtyRect = none ∨ adjustDirtyRect = some true then
          adjustDirtyRectangle st1 x y
        else st1
      let index := (y * st2.width + x) * 4
      { st2 with
        framebuffer :=
          fbWrite (fbWrite (fbWrite (fbWrite st2.framebuffer index (rgba.getD 0 0))
            (index + 1) (rgba.getD 1 0)) (index + 2) (rgba.getD 2 0))
            (index + 3) (rgba.getD 3 0) }

/-- `function resetDirtyRect()`: the inverted-extreme empty state. -/
def emptyDirty (w h : Int) : DirtyRect :=
  { x := w - 1, y := h - 1, xMax := 0, yMax := 0 }

/-- `function setMaxDirtyRect()`: the full-canvas state used at init. -/
def fullDirty (w h : Int) : DirtyRect :=
  { x := 0, y := 0, xMax := w - 1, yMax := h - 1 }

/-- Overwrite `dst[off + k] := src[k]` for `k < len`, leaving everything
else in place: the effect of `dstView.set(srcView)` on two typed-array
views of length `len` based at `off` and `0`. -/
def copyRange {α : Type} (dst src : List α) (off len : Nat) : List α :=
  dst.mapIdx fun i v => if off ≤ i ∧ i < off + len then src.getD (i - off) v else v

/-- `function reset()`: clears the linear index span
`[dirtyStartIndex, dirtyEndIndex)` (exclusive end) of both stores from
the templates when `dirtyEndIndex > dirtyStartIndex`, returns the
clear rectangle (or `none`, JS `undefined`, when nothing was dirty) and
always restores the empty dirty rectangle. -/
def reset (st : FB) : Option Rect × FB :=
  let dirtyStartIndex := st.dirtyRect.y * st.width + st.dirtyRect.x
  let dirtyEndIndex := st.dirtyRect.yMax * st.width + st.dirtyRect.xMax
  if dirtyStartIndex < dirtyEndIndex then
    let dirtyWidth := (dirtyEndIndex - dirtyStartIndex).toNat
    let zBuf' := copyRange st.zBuf st.resetZBuffer dirtyStartIndex.toNat dirtyWidth
    let fb' := copyRange st.framebuffer st.resetBuffer (4 * dirtyStartIndex.toNat) (4 * dirtyWidth)
    (some { x := st.dirtyRect.x, y := st.dirtyRect.y,
            w := st.dirtyRect.xMax - st.dirtyRect.x + 1,
            h := st.dirtyRect.yMax - st.dirtyRect.y + 1 },
     { st with zBuf := zBuf', framebuffer := fb',
               dirtyRect := emptyDirty st.width st.height })
  else
    (none, { st with dirtyRect := emptyDirty st.width st.height })

/-- JS `ToUint32`. -/
def jsToUint32 (x : Int) : Nat := (x % (4294967296 : Int)).toNat

/-- JS `ToInt32`. -/
def jsToInt32 (x : Int) : Int :=
  if jsToUint32 x < 2147483648 then (jsToUint32 x : Int)
  else (jsToUint32 x : Int) - 4294967296

/-- JS `x << n` on 32-bit operands. -/
def jsShl (x : Int) (n : Nat) : Int := jsToInt32 (jsToInt32 x * (2 ^ n : Nat))

/-- JS `x | y` on 32-bit operands. -/
def jsOr (x y : Int) : Int := jsToInt32 (Nat.lor (jsToUint32 x) (jsToUint32 y))

/-- The module's `bgColor` after `init` merged a caller-supplied array
over the default `[255, 255, 255, 255]` and forced alpha to 255. -/
def resolveBG : Option (List Int) → List Int
  | none => [255, 255, 255, 255]
  | some l =>
      [if 0 < l.length then l.getD 0 0 else 255,
       if 1 < l.length then l.getD 1 0 else 255,
       if 2 < l.length then l.getD 2 0 else 255,
       255]

/-- The packed word `(a << 24) | (b << 16) | (g << 8) | r` built by
`initResetBuffer`, as the `Uint32Array` stores it. -/
def packBGWord (c : List Int) : Nat :=
  jsToUint32 (jsOr (jsOr (jsOr (jsShl (c.getD 3 0) 24) (jsShl (c.getD 2 0) 16))
    (jsShl (c.getD 1 0) 8)) (c.getD 0 0))

/-- Little-endian byte image of a 32-bit word, as a `Uint8ClampedArray`
view over the same buffer reads it on a little-endian platform. -/
def wordBytes (w : Nat) : List Int :=
  [(w % 256 : Nat), (w / 256 % 256 : Nat), (w / 65536 % 256 : Nat), (w / 16777216 % 256 : Nat)]

/-- The state built by `init` just before its final `reset()` call:
fresh zero-filled `zBuf`, the canvas's current pixels as `framebuffer`
(what `getImageData` returns), the two templates from
`initResetBuffer`, and the full dirty rectangle from
`setMaxDirtyRect`. -/
def mkInitState (w h : Int) (initial : List Int) (bg : Option (List Int)) : FB :=
  let bgc := resolveBG bg
  { width := w
    height := h
    framebuffer := initial
    zBuf := List.replicate (w * h).toNat 0
    resetBuffer := (List.replicate (w * h).toNat (wordBytes (packBGWord bgc))).flatten
    resetZBuffer := List.replicate (w * h).toNat maxDistance
    dirtyRect := fullDirty w h }

/-- `function init(_ctx, _bgColor)` together with the rectangle its
internal `reset()` call returned (the source discards it). -/
def initWithRect (w h : Int) (initial : List Int) (bg : Option (List Int)) :
    Option Rect × FB :=
  reset (mkInitState w h initial bg)

/-- `function init(_ctx, _bgColor)`: the state after `init` completes. -/
def init (w h : Int) (initial : List Int) (bg : Option (List Int)) : FB :=
  (initWithRect w h initial bg).2

/-- One step of the min/max scan in `scaleZBuffer`: sentinel cells are
skipped, and a value updates the max, `else` possibly the min. -/
def minMaxStep (p : ℚ × ℚ) (v : ℚ) : ℚ × ℚ :=
  if v = maxDistance then p
  else if p.2 < v then (p.1, v)
  else if v < p.1 then (v, p.2)
  else p

/-- The `(min, max)` pair after the scan loop of `scaleZBuffer`,
started from `(-maxDistance, maxDistance) = (10000, -10000)`. -/
def zScanMinMax (zb : List ℚ) : ℚ × ℚ :=
  zb.foldl minMaxStep (-maxDistance, maxDistance)

/-- `range = Math.abs(max - min)`, forced to `1` when zero. -/
def zRange (zb : List ℚ) : ℚ :=
  if |(zScanMinMax zb).2 - (zScanMinMax zb).1| = 0 then 1
  else |(zScanMinMax zb).2 - (zScanMinMax zb).1|

/-- `function scaleZBuffer()` acting on the depth store: the scan
computes `(min, max)` and `range`, then every non-sentinel cell is
rewritten to `(value - min) / range`. -/
def scaleZBuffer (zb : List ℚ) : List ℚ :=
  zb.map fun v => if v = maxDistance then v else (v - (zScanMinMax zb).1) / zRange zb

/-- Iterated `adjustDirtyRectangle` over a list of points. -/
def extendAll (st : FB) (ps : List (Int × Int)) : FB :=
  ps.foldl (fun s p => adjustDirtyRectangle s p.1 p.2) st

/-! ### Claim theorems -/

/-- C1: the claim asserts that after `init` every depth cell holds
`maxDistance` and every pixel holds the background color with alpha
255.  On a 2×2 canvas with `bgColor = [10, 20, 30]` and an all-zero
initial canvas, the internal `reset` does return the full rectangle
`{0, 0, 2, 2}`, but its copy covers only the linear span
`[0, yMax·width + xMax) = [0, 3)`, so the last depth cell still holds
`0` (not `maxDistance`) and the last pixel still holds `(0,0,0,0)`
(not `(10,20,30,255)`). -/
theorem C1_init_leaves_last_cell :
    (initWithRect 2 2 (List.replicate 16 0) (some [10, 20, 30])).1 =
      some { x := 0, y := 0, w := 2, h := 2 } ∧
    (initWithRect 2 2 (List.replicate 16 0) (some [10, 20, 30])).2.zBuf =
      [maxDistance, maxDistance, maxDistance, 0] ∧
    (0 : ℚ) ≠ maxDistance ∧
    (initWithRect 2 2 (List.replicate 16 0) (some [10, 20, 30])).2.framebuffer.getD 15 0 = 0 ∧
    (0 : Int) ≠ 255 := by
  refine ⟨by decide, by decide, by decide, by decide, by decide⟩

/-- C2: from the empty inverted dirty state on a 4×4 canvas
(`x = 3, y = 3, xMax = 0, yMax = 0`, the state `init` leaves behind),
a single `adjustDirtyRectangle 1 1` call updates only the min bounds —
the `else if` skips the max comparison — leaving
`{x := 1, y := 1, xMax := 0, yMax := 0}`, which does not cover `(1,1)`
since `xMax = 0 < 1`. -/
theorem C2_extend_skips_max_bound :
    (init 4 4 (List.replicate 64 0) none).dirtyRect =
      { x := 3, y := 3, xMax := 0, yMax := 0 } ∧
    (adjustDirtyRectangle (init 4 4 (List.replicate 64 0) none) 1 1).dirtyRect =
      { x := 1, y := 1, xMax := 0, yMax := 0 } ∧
    ¬ (1 : Int) ≤
      (adjustDirtyRectangle (init 4 4 (List.replicate 64 0) none) 1 1).dirtyRect.xMax := by
  refine ⟨by decide, by decide, by decide⟩

/-- A successful `zread` entails a nonnegative index. -/
theorem zread_nonneg {l : List ℚ} {i : Int} {v : ℚ} (h : zread l i = some v) : 0 ≤ i := by
  by_contra hneg
  simp [zread, hneg] at h

/-- A successful `zread` entails an in-bounds index. -/
theorem zread_lt_length {l : List ℚ} {i : Int} {v : ℚ} (h : zread l i = some v) :
    i.toNat < l.length := by
  have h0 : 0 ≤ i := zread_nonneg h
  simp only [zread, if_pos h0] at h
  exact (List.getElem?_eq_some.mp h).1

/-- `zBufferTest` on a readable slot whose stored depth passes the
biased comparison: returns `true` and stores `z`. -/
theorem zBufferTest_pass (st : FB) (x y : Int) (z stored : ℚ)
    (hread : zread st.zBuf (y * st.width + x) = some stored) (hlt : stored < z + 10) :
    zBufferTest st x y z =
      (true, { st with zBuf := zwrite st.zBuf (y * st.width + x) z }) := by
  simp only [zBufferTest, hread, if_pos hlt]

/-- `zBufferTest` on a readable slot whose stored depth fails the
biased comparison: returns `false` and changes nothing. -/
theorem zBufferTest_fail (st : FB) (x y : Int) (z stored : ℚ)
    (hread : zread st.zBuf (y * st.width + x) = some stored) (hlt : ¬ stored < z + 10) :
    zBufferTest st x y z = (false, st) := by
  simp only [zBufferTest, hread, if_neg hlt]

/-- Evaluation of `set` with default flags when the coordinates are in
range and the depth test passes with post-state `st'`. -/
theorem set_eval (st st' : FB) (x y : Int) (z : ℚ) (rgba : List Int)
    (hin : ¬ (x < 0 ∨ y < 0 ∨ st.width ≤ x ∨ st.height ≤ y))
    (hz : zBufferTest st x y z = (true, st')) :
    setPixel st x y z rgba none none =
      { adjustDirtyRectangle st' x y with
        framebuffer :=
          fbWrite (fbWrite (fbWrite (fbWrite (adjustDirtyRectangle st' x y).framebuffer
            ((y * (adjustDirtyRectangle st' x y).width + x) * 4) (rgba.getD 0 0))
            ((y * (adjustDirtyRectangle st' x y).width + x) * 4 + 1) (rgba.getD 1 0))
            ((y * (adjustDirtyRectangle st' x y).width + x) * 4 + 2) (rgba.getD 2 0))
            ((y * (adjustDirtyRectangle st' x y).width + x) * 4 + 3) (rgba.getD 3 0) } := by
  simp only [setPixel, if_neg hin, hz]
  simp

/-- C3: the round-trip scenario of the claim fails on the code.  On a
4×4 canvas with `bgColor = [10, 20, 30]`, after `init` and
`set 1 1 5 [1,2,3,4]` the dirty rectangle is the non-covering
`{1, 1, 0, 0}`, so the following `reset()` finds
`dirtyEndIndex = 0 ≤ 5 = dirtyStartIndex`, clears nothing and returns
`none` (JS `undefined`) instead of `{x:1, y:1, w:1, h:1}`; pixel
`(1,1)` (bytes 20–23) still reads `(1,2,3,4)` and the depth at `(1,1)`
(cell 5) still reads `5`, not the sentinel. -/
theorem C3_single_pixel_roundtrip_fails :
    (reset (setPixel (init 4 4 (List.replicate 64 0) (some [10, 20, 30])) 1 1 5 [1, 2, 3, 4]
        none none)).1 = none ∧
    ((reset (setPixel (init 4 4 (List.replicate 64 0) (some [10, 20, 30])) 1 1 5 [1, 2, 3, 4]
        none none)).2.framebuffer.drop 20).take 4 = [1, 2, 3, 4] ∧
    (reset (setPixel (init 4 4 (List.replicate 64 0) (some [10, 20, 30])) 1 1 5 [1, 2, 3, 4]
        none none)).2.zBuf.getD 5 0 = 5 := by
  have hz : zBufferTest (init 4 4 (List.replicate 64 0) (some [10, 20, 30])) 1 1 5 =
      (true, { init 4 4 (List.replicate 64 0) (some [10, 20, 30]) with
               zBuf := zwrite (init 4 4 (List.replicate 64 0) (some [10, 20, 30])).zBuf
                 (1 * (init 4 4 (List.replicate 64 0) (some [10, 20, 30])).width + 1) 5 }) := by
    refine zBufferTest_pass _ _ _ _ maxDistance (by decide) ?_
    norm_num [maxDistance]
  rw [set_eval _ _ _ _ _ _ (by decide) hz]
  refine ⟨by decide, by decide, by decide⟩

/-- C4 counterexample: on a 2×1 canvas, `init` leaves cell 0 holding
the sentinel `maxDistance` (the claim's "no depth ever recorded"
state), yet `zBufferTest 0 0 (-10010)` returns `false` and mutates
nothing, because `-10000 < -10010 + 10` is false — the claim's
"sentinel always passes" disjunct is wrong. -/
theorem C4_sentinel_slot_can_fail :
    zread (init 2 1 (List.replicate 8 0) none).zBuf
        (0 * (init 2 1 (List.replicate 8 0) none).width + 0) = some maxDistance ∧
    (zBufferTest (init 2 1 (List.replicate 8 0) none) 0 0 (-10010)).1 = false ∧
    (zBufferTest (init 2 1 (List.replicate 8 0) none) 0 0 (-10010)).2 =
      init 2 1 (List.replicate 8 0) none := by
  have hfail : zBufferTest (init 2 1 (List.replicate 8 0) none) 0 0 (-10010) =
      (false, init 2 1 (List.replicate 8 0) none) := by
    refine zBufferTest_fail _ _ _ _ maxDistance (by decide) ?_
    norm_num [maxDistance]
  exact ⟨by decide, by rw [hfail], by rw [hfail]⟩

/-- C4 (amended): for an in-range slot (one whose stored depth is
readable), `zBufferTest` passes exactly when `stored < z + 10`; on a
pass it stores `z` there and changes no other depth cell, on a failure
it changes nothing.  The "never recorded" branch is unreachable
in-range, so a sentinel-holding slot passes only when
`maxDistance < z + 10`. -/
theorem C4_zBufferTest_characterization (st : FB) (x y : Int) (z stored : ℚ)
    (hread : zread st.zBuf (y * st.width + x) = some stored) :
    ((zBufferTest st x y z).1 = true ↔ stored < z + 10) ∧
    (stored < z + 10 →
      zread (zBufferTest st x y z).2.zBuf (y * st.width + x) = some z ∧
      ∀ j : Int, j ≠ y * st.width + x →
        zread (zBufferTest st x y z).2.zBuf j = zread st.zBuf j) ∧
    (¬ stored < z + 10 → (zBufferTest st x y z).2 = st) := by
  have h0 : 0 ≤ y * st.width + x := zread_nonneg hread
  have hlen : (y * st.width + x).toNat < st.zBuf.length := zread_lt_length hread
  by_cases hlt : stored < z + 10
  · rw [zBufferTest_pass st x y z stored hread hlt]
    refine ⟨by simp [hlt], fun _ => ⟨?_, fun j hj => ?_⟩, fun h => absurd hlt h⟩
    · simp only [zwrite, if_pos h0, zread]
      exact List.getElem?_set_eq_of_lt z hlen
    · simp only [zwrite, if_pos h0, zread]
      by_cases hj0 : 0 ≤ j
      · rw [if_pos hj0, if_pos hj0]
        exact List.getElem?_set_ne (by omega)
      · rw [if_neg hj0, if_neg hj0]
  · rw [zBufferTest_fail st x y z stored hread hlt]
    exact ⟨by simp [hlt], fun h => absurd h hlt, fun _ => rfl⟩

/-- C4 witness: on the 2×1 post-`init` state, slot `(0,0)` holds the
sentinel and `z = 0` passes since `-10000 < 0 + 10`. -/
theorem C4_zBufferTest_characterization_witness :
    (zBufferTest (init 2 1 (List.replicate 8 0) none) 0 0 0).1 = true ↔
      maxDistance < 0 + 10 :=
  (C4_zBufferTest_characterization (init 2 1 (List.replicate 8 0) none) 0 0 0 maxDistance
    (by decide)).1

/-- C5: `reset` returns the rectangle
`{x, y, w = xMax-x+1, h = yMax-y+1}` exactly when the dirty rectangle
is non-empty in the linearized sense
(`y·width + x < yMax·width + xMax`), returns `none` (an empty result)
otherwise, and in both cases restores the inverted-extreme empty dirty
rectangle.  The hypotheses state the well-formedness under which the
JS typed-array views are constructible (no exception). -/
theorem C5_reset_return_and_markEmpty (st : FB)
    (h1 : 0 ≤ st.dirtyRect.y * st.width + st.dirtyRect.x)
    (h2 : st.dirtyRect.yMax * st.width + st.dirtyRect.xMax ≤ st.width * st.height)
    (h3 : (st.zBuf.length : Int) = st.width * st.height)
    (h4 : (st.framebuffer.length : Int) = 4 * (st.width * st.height))
    (h5 : (st.resetZBuffer.length : Int) = st.width * st.height)
    (h6 : (st.resetBuffer.length : Int) = 4 * (st.width * st.height)) :
    ((st.dirtyRect.y * st.width + st.dirtyRect.x <
        st.dirtyRect.yMax * st.width + st.dirtyRect.xMax →
      (reset st).1 = some { x := st.dirtyRect.x, y := st.dirtyRect.y,
                            w := st.dirtyRect.xMax - st.dirtyRect.x + 1,
                            h := st.dirtyRect.yMax - st.dirtyRect.y + 1 }) ∧
     (¬ st.dirtyRect.y * st.width + st.dirtyRect.x <
        st.dirtyRect.yMax * st.width + st.dirtyRect.xMax →
      (reset st).1 = none)) ∧
    (reset st).2.dirtyRect =
      { x := st.width - 1, y := st.height - 1, xMax := 0, yMax := 0 } := by
  by_cases hc : st.dirtyRect.y * st.width + st.dirtyRect.x <
      st.dirtyRect.yMax * st.width + st.dirtyRect.xMax
  · refine ⟨⟨fun _ => ?_, fun h => absurd hc h⟩, ?_⟩ <;>
      simp [reset, if_pos hc, emptyDirty]
  · refine ⟨⟨fun h => absurd h hc, fun _ => ?_⟩, ?_⟩ <;>
      simp [reset, if_neg hc, emptyDirty]

/-- C5 witness: after `init` on a 2×2 canvas the dirty rectangle is the
empty `{1, 1, 0, 0}`, the linearized test `0 < 3` fails reversed
(`3 ≥ 0`), so `reset` returns `none` and keeps the empty rectangle. -/
theorem C5_reset_return_and_markEmpty_witness :
    (reset (init 2 2 (List.replicate 16 0) none)).1 = none ∧
    (reset (init 2 2 (List.replicate 16 0) none)).2.dirtyRect =
      { x := 1, y := 1, xMax := 0, yMax := 0 } := by
  have h := C5_reset_return_and_markEmpty (init 2 2 (List.replicate 16 0) none)
    (by decide) (by decide) (by decide) (by decide) (by decide) (by decide)
  exact ⟨h.1.2 (by decide), h.2.trans (by decide)⟩

/-- C7: `set` on out-of-range coordinates returns the state unchanged,
for every depth, color and flag combination: the bounds check fires
before any mutation. -/
theorem C7_out_of_range_noop (st : FB) (x y : Int) (z : ℚ) (rgba : List Int)
    (doZ adjD : Option Bool)
    (h : x < 0 ∨ y < 0 ∨ st.width ≤ x ∨ st.height ≤ y) :
    setPixel st x y z rgba doZ adjD = st := by
  simp only [setPixel, if_pos h]

/-- C7 witness: `set (-1) 0` on the 2×2 post-`init` state is the
identity. -/
theorem C7_out_of_range_noop_witness :
    setPixel (init 2 2 (List.replicate 16 0) none) (-1) 0 7 [9, 9, 9, 9]
      (some false) (some true) = init 2 2 (List.replicate 16 0) none :=
  C7_out_of_range_noop _ (-1) 0 7 [9, 9, 9, 9] (some false) (some true) (by decide)

/-- One `adjustDirtyRectangle` call moves every bound outward (or not
at all): min bounds never increase, max bounds never decrease. -/
theorem adjustDirtyRectangle_outward (st : FB) (x y : Int) :
    (adjustDirtyRectangle st x y).dirtyRect.x ≤ st.dirtyRect.x ∧
    (adjustDirtyRectangle st x y).dirtyRect.y ≤ st.dirtyRect.y ∧
    st.dirtyRect.xMax ≤ (adjustDirtyRectangle st x y).dirtyRect.xMax ∧
    st.dirtyRect.yMax ≤ (adjustDirtyRectangle st x y).dirtyRect.yMax := by
  simp only [adjustDirtyRectangle]
  split_ifs <;> simp_all <;> omega

/-- C8: across any sequence of `adjustDirtyRectangle` calls, the dirty
rectangle only grows: `x` and `y` never increase, `xMax` and `yMax`
never decrease. -/
theorem C8_extend_monotonic (st : FB) (ps : List (Int × Int)) :
    (extendAll st ps).dirtyRect.x ≤ st.dirtyRect.x ∧
    (extendAll st ps).dirtyRect.y ≤ st.dirtyRect.y ∧
    st.dirtyRect.xMax ≤ (extendAll st ps).dirtyRect.xMax ∧
    st.dirtyRect.yMax ≤ (extendAll st ps).dirtyRect.yMax := by
  induction ps generalizing st with
  | nil => simp [extendAll]
  | cons p ps ih =>
      have h1 := adjustDirtyRectangle_outward st p.1 p.2
      have h2 := ih (adjustDirtyRectangle st p.1 p.2)
      simp only [extendAll, List.foldl_cons] at h2 ⊢
      exact ⟨le_trans h2.1 h1.1, le_trans h2.2.1 h1.2.1,
        le_trans h1.2.2.1 h2.2.2.1, le_trans h1.2.2.2 h2.2.2.2⟩

/-- The min/max scan ignores a buffer made only of sentinel values. -/
theorem foldl_minMaxStep_sentinel (zb : List ℚ) (p : ℚ × ℚ)
    (h : ∀ v ∈ zb, v = maxDistance) : zb.foldl minMaxStep p = p := by
  induction zb generalizing p with
  | nil => rfl
  | cons a l ih =>
      have ha : a = maxDistance := h a (by simp)
      simp only [List.foldl_cons, minMaxStep, if_pos ha]
      exact ih p fun v hv => h v (by simp [hv])

/-- The range computed by `scaleZBuffer` is strictly positive (it is
`1` when the absolute difference vanishes). -/
theorem zRange_pos (zb : List ℚ) : 0 < zRange zb := by
  unfold zRange
  split_ifs with h
  · norm_num
  · exact lt_of_le_of_ne (abs_nonneg _) (Ne.symm h)

/-- C9: on a depth buffer holding only the sentinel, `scaleZBuffer`
changes nothing, and the divisor it would use is nonzero (the scan
leaves `(min, max) = (10000, -10000)`, giving `range = 20000`, and a
zero range would be forced to `1` anyway). -/
theorem C9_all_sentinel_noop (zb : List ℚ) (h : ∀ v ∈ zb, v = maxDistance) :
    scaleZBuffer zb = zb ∧ zRange zb ≠ 0 := by
  constructor
  · unfold scaleZBuffer
    have : ∀ v ∈ zb, (if v = maxDistance then v
        else (v - (zScanMinMax zb).1) / zRange zb) = v := fun v hv => if_pos (h v hv)
    calc zb.map _ = zb.map id := List.map_congr_left this
    _ = zb := List.map_id zb
  · exact ne_of_gt (zRange_pos zb)

/-- C9 witness: the two-cell all-sentinel buffer. -/
theorem C9_all_sentinel_noop_witness :
    scaleZBuffer [maxDistance, maxDistance] = [maxDistance, maxDistance] ∧
    zRange [maxDistance, maxDistance] ≠ 0 :=
  C9_all_sentinel_noop [maxDistance, maxDistance] (by decide)

/-- C10: when the linear index `y·width + x` falls outside
`[0, width·height)` (with the depth store sized `width·height`), the
JS read yields `undefined`, so `zBufferTest` takes the
"never recorded" branch: it returns `true`, and the out-of-range store
is a silent no-op, leaving every depth cell unchanged. -/
theorem C10_out_of_range_passes_without_mutation (st : FB) (x y : Int) (z : ℚ)
    (hlen : (st.zBuf.length : Int) = st.width * st.height)
    (h : y * st.width + x < 0 ∨ st.width * st.height ≤ y * st.width + x) :
    (zBufferTest st x y z).1 = true ∧ (zBufferTest st x y z).2 = st := by
  have hz : zread st.zBuf (y * st.width + x) = none := by
    rcases h with h | h
    · simp [zread, not_le.mpr h]
    · rw [zread, if_pos (le_trans (by omega : (0 : Int) ≤ st.width * st.height) h)]
      exact List.getElem?_eq_none (by omega)
  have hw : zwrite st.zBuf (y * st.width + x) z = st.zBuf := by
    unfold zwrite
    split_ifs with h0
    · rcases h with h | h
      · omega
      · exact List.set_eq_of_length_le (by omega)
    · rfl
  simp [zBufferTest, hz, hw]

/-- C10 witness: on the 2×2 post-`init` state, `(x, y) = (0, 5)` gives
linear index `10 ≥ 4`. -/
theorem C10_out_of_range_passes_without_mutation_witness :
    (zBufferTest (init 2 2 (List.replicate 16 0) none) 0 5 7).1 = true ∧
    (zBufferTest (init 2 2 (List.replicate 16 0) none) 0 5 7).2 =
      init 2 2 (List.replicate 16 0) none :=
  C10_out_of_range_passes_without_mutation (init 2 2 (List.replicate 16 0) none) 0 5 7
    (by decide) (by decide)

/-- The max component of the scan is the running maximum of the
non-sentinel values: the `else if` chain never blocks a max update. -/
theorem foldl_minMaxStep_snd (zb : List ℚ) (p : ℚ × ℚ) :
    (zb.foldl minMaxStep p).2 = (zb.filter (fun v => v ≠ maxDistance)).foldl max p.2 := by
  induction zb generalizing p with
  | nil => rfl
  | cons a l ih =>
      rw [List.foldl_cons, List.filter_cons, ih (minMaxStep p a)]
      by_cases ha : a = maxDistance
      · simp [minMaxStep, ha]
      · have h2 : (minMaxStep p a).2 = max p.2 a := by
          simp only [minMaxStep, if_neg ha]
          split_ifs with hmax hmin
          · exact (max_eq_right hmax.le).symm
          · exact (max_eq_left (not_lt.mp hmax)).symm
          · exact (max_eq_left (not_lt.mp hmax)).symm
        simp [ha, h2]

/-- Read one cell of the rescaled buffer. -/
theorem scaleZBuffer_getD (zb : List ℚ) (i : Nat) (h : i < zb.length) :
    (scaleZBuffer zb).getD i 0 =
      (if zb.getD i 0 = maxDistance then zb.getD i 0
       else (zb.getD i 0 - (zScanMinMax zb).1) / zRange zb) := by
  unfold scaleZBuffer
  rw [List.getD_eq_getElem?_getD, List.getD_eq_getElem?_getD, List.getElem?_map,
    List.getElem?_eq_getElem h]
  rfl

/-- C6 counterexample: on the one-cell buffer `[5000]` the scan's max
update swallows the value (`min` stays at the initial `10000`), so the
code rewrites the cell to `(5000 - 10000)/5000 = -1`, while the claim
(min = max = 5000, range forced to 1) predicts
`(5000 - 5000)/1 = 0` and a result inside `[0, 1]`. -/
theorem C6_min_is_not_true_minimum :
    scaleZBuffer [(5000 : ℚ)] = [-1] ∧
    ((5000 : ℚ) - 5000) / 1 = 0 ∧
    ¬ ((0 : ℚ) ≤ -1) := by
  have h1 : zScanMinMax [(5000 : ℚ)] = (10000, 5000) := by decide
  have h2 : zRange [(5000 : ℚ)] = 5000 := by rw [zRange, h1]; norm_num
  refine ⟨?_, by norm_num, by norm_num⟩
  simp only [scaleZBuffer, h1, h2, List.map_cons, List.map_nil]
  norm_num [maxDistance]

/-- C6 (amended): after `scaleZBuffer`, sentinel cells are untouched
and every other cell holds `(old - min)/range`, where `(min, max)` come
from the sequential scan (`zScanMinMax`, started at `(10000, -10000)`,
max updated first and `else` min) and `range = |max - min|` forced to
`1` when zero.  The divisor is strictly positive, so the relative
order of the non-sentinel cells is preserved; the scan's max component
is the true maximum of the non-sentinel values and `maxDistance`, but
the min component need not be the true minimum, so the results need
not lie in `[0, 1]`. -/
theorem C6_scale_characterization (zb : List ℚ) :
    (scaleZBuffer zb).length = zb.length ∧
    0 < zRange zb ∧
    (∀ i : Nat, i < zb.length → zb.getD i 0 = maxDistance →
      (scaleZBuffer zb).getD i 0 = maxDistance) ∧
    (∀ i : Nat, i < zb.length → zb.getD i 0 ≠ maxDistance →
      (scaleZBuffer zb).getD i 0 = (zb.getD i 0 - (zScanMinMax zb).1) / zRange zb) ∧
    (∀ i j : Nat, i < zb.length → j < zb.length →
      zb.getD i 0 ≠ maxDistance → zb.getD j 0 ≠ maxDistance →
      ((scaleZBuffer zb).getD i 0 ≤ (scaleZBuffer zb).getD j 0 ↔
        zb.getD i 0 ≤ zb.getD j 0)) ∧
    (zScanMinMax zb).2 = (zb.filter (fun v => v ≠ maxDistance)).foldl max maxDistance := by
  refine ⟨List.length_map zb _, zRange_pos zb, ?_, ?_, ?_, ?_⟩
  · intro i hi hsent
    rw [scaleZBuffer_getD zb i hi, if_pos hsent, hsent]
  · intro i hi hns
    rw [scaleZBuffer_getD zb i hi, if_neg hns]
  · intro i j hi hj hnsi hnsj
    rw [scaleZBuffer_getD zb i hi, if_neg hnsi, scaleZBuffer_getD zb j hj, if_neg hnsj,
      div_le_div_iff_of_pos_right (zRange_pos zb), sub_le_sub_iff_right]
  · exact foldl_minMaxStep_snd zb (-maxDistance, maxDistance)

/-- C6 witness: on `[5000, 3000]` the first cell is rewritten to
`(5000 - min)/range` (here `min = 3000`, `range = 2000`, value `1`). -/
theorem C6_scale_characterization_witness :
    (scaleZBuffer [(5000 : ℚ), 3000]).getD 0 0 =
      ([(5000 : ℚ), 3000].getD 0 0 - (zScanMinMax [(5000 : ℚ), 3000]).1) /
        zRange [(5000 : ℚ), 3000] :=
  (C6_scale_characterization [(5000 : ℚ), 3000]).2.2.2.1 0 (by decide) (by decide)
